import Mathlib

/- Shallow embedding of the JinWeb HTTP router: src/unnamed/part_000 holds the
   ModelController interface draft and the full Router class (trie registration,
   dispatch, middleware chain, controller mapping); src/unnamed/part_001 is the
   earlier Router draft without middlewares.  External Web APIs (URL parsing,
   URLSearchParams, JSON.parse, FormData) are capabilities of the Bun/Fetch host
   layer, not repository code: requests carry their already-parsed results,
   mirroring the spec view of the host HTTP layer. -/

/-- Response object: the router only ever constructs and compares body plus status
    (new Response(body, { status })); status defaults to 200 in the Fetch API. -/
structure Response where
  body : String
  status : Nat
deriving DecidableEq

/-- Request object as seen by the router.  method and the URL pathname come from the
    host; query is the URLSearchParams pair sequence of url.search; contentType is
    headers.get("Content-Type") (header names are case-insensitive in the Fetch API,
    so the single field also serves the headers.get("content-type") read in
    mapModelController); jsonBody, formBody and multipartBody are the results of the
    body-reading capabilities request.json(), URLSearchParams(request.text()) and
    request.formData(), restricted to the string-valued flat objects the routing
    layer merges into the parameter map. -/
structure Request where
  method : String
  urlPath : String
  query : List (String × String)
  contentType : Option String
  jsonBody : List (String × String)
  formBody : List (String × String)
  multipartBody : List (String × String)

/-- Parameter map Record(string, string): a JS object, i.e. an insertion-ordered
    association list with unique keys. -/
abbrev JsObj := List (String × String)

/-- Parsed JSON object restricted to flat string fields, which is all the routing
    layer ever merges or forwards. -/
abbrev Json := List (String × String)

/-- Route callback: called as callback(request, params) by handleRoute. -/
abbrev Handler := Request → JsObj → Response

/-- Middleware type from part_000: (request, params, next) to a response. -/
abbrev Middleware := Request → JsObj → (Unit → Response) → Response

/-- JS object / Map lookup: first (hence only, keys are unique) binding of the key. -/
def jsGet {α : Type} (m : List (String × α)) (k : String) : Option α :=
  match m with
  | [] => none
  | p :: rest => if p.1 == k then some p.2 else jsGet rest k

/-- JS object property assignment and Map.set: replace the value of an existing key
    in place (insertion order preserved), otherwise append the new binding. -/
def jsSet {α : Type} (m : List (String × α)) (k : String) (v : α) : List (String × α) :=
  match m with
  | [] => [(k, v)]
  | p :: rest => if p.1 == k then (k, v) :: rest else p :: jsSet rest k v

/-- Sequence of JS assignments params(key) = value, one per pair, in order. -/
def mergePairs (start : JsObj) (pairs : List (String × String)) : JsObj :=
  pairs.foldl (fun acc kv => jsSet acc kv.1 kv.2) start

/-- Array.prototype.indexOf: index of the first occurrence of the value.  In route
    the searched segment always occurs in the pathname, so the not-found result is
    never reached. -/
def jsIndexOf (l : List String) (x : String) : Nat :=
  match l with
  | [] => 0
  | y :: ys => if y == x then 0 else jsIndexOf ys x + 1

/-- JS String.prototype.toUpperCase on the ASCII method names used here. -/
def toUpperCase (s : String) : String := String.mk (s.data.map Char.toUpper)

/-- Splitting pass of JS String.prototype.split("/"): pieces between slashes, with
    leading, trailing and doubled slashes contributing empty pieces.  The second
    argument accumulates the current piece in reverse. -/
def splitSlashAux : List Char → List Char → List String
  | [], acc => [String.mk acc.reverse]
  | c :: rest, acc =>
    if c = '/' then String.mk acc.reverse :: splitSlashAux rest []
    else splitSlashAux rest (c :: acc)

/-- JS String.prototype.split("/") as used on url.pathname. -/
def jsSplitSlash (s : String) : List String := splitSlashAux s.data []

/-- Character-list comparison behind JS String.prototype.startsWith: the second
    list leads the first. -/
def charsLeadWith : List Char → List Char → Bool
  | _, [] => true
  | [], _ :: _ => false
  | c :: cs, d :: ds => c == d && charsLeadWith cs ds

/- ---------------------------------------------------------------------------
   splitPath: path.match(regexTokens) with
   regexTokens = one of (lazy parenthesised group) | (:name) | (*name) | (literal
   run of non-slash characters), scanned left to right, leftmost match first,
   alternatives tried in order at each position.  A slash starts no alternative and
   is skipped.  At a colon or star, alternatives 2/3 and the literal fallback both
   produce the character followed by the maximal run of non-slash characters.  At an
   opening parenthesis, the lazy dot-plus matches the shortest nonempty newline-free
   run followed by a closing parenthesis; if no such close exists the literal
   alternative matches instead, starting at the parenthesis.
   --------------------------------------------------------------------------- -/

/-- Shortest nonempty newline-free prefix followed by a closing parenthesis: the
    lazy group body of the first splitPath alternative.  Returns the body and the
    remainder after the close. -/
def splitClose : List Char → Option (List Char × List Char)
  | [] => none
  | c :: cs =>
    if c = '\n' then none
    else
      match cs with
      | ')' :: rest => some ([c], rest)
      | _ =>
        match splitClose cs with
        | some (p, rest) => some (c :: p, rest)
        | none => none

/-- Token scanner for splitPath.  The fuel argument only bounds recursion depth:
    every step consumes at least one character, so fuel equal to the length of the
    input makes the bound inert. -/
def scanPathAux : Nat → List Char → List String
  | 0, _ => []
  | _ + 1, [] => []
  | fuel + 1, '/' :: rest => scanPathAux fuel rest
  | fuel + 1, '(' :: rest =>
    match splitClose rest with
    | some (inner, rem) => ("(" ++ String.mk inner ++ ")") :: scanPathAux fuel rem
    | none =>
      let run := rest.takeWhile (fun c => c != '/')
      String.mk ('(' :: run) :: scanPathAux fuel (rest.drop run.length)
  | fuel + 1, c :: rest =>
    let run := rest.takeWhile (fun c => c != '/')
    String.mk (c :: run) :: scanPathAux fuel (rest.drop run.length)

/-- Router.splitPath from part_000 line 126: tokenize the route pattern. -/
def splitPath (path : String) : List String :=
  scanPathAux path.data.length path.data

/-- Compiled validator from Router.createPattern.  The RegExp is produced by a
    deterministic rewrite of the path string, is stored on the terminal node and is
    never consulted by matching (the trie walk is authoritative), so it is modelled
    by its generating path. -/
structure CompiledPattern where
  src : String
deriving DecidableEq

/-- Router.createPattern from part_000 line 131 (see CompiledPattern). -/
def createPattern (path : String) : CompiledPattern := ⟨path⟩

/-- Classification of one registration token, following the two anchored matches in
    addRoute: segment.match(regex colon-capture) and segment.match(regex
    star-capture).  The dot-plus capture takes everything after the marker up to a
    newline and requires at least one non-newline character. -/
inductive SegClass where
  | param (name : String)
  | splat (name : String)
  | lit
deriving DecidableEq

/-- Token classifier used by addRoute (see SegClass). -/
def segClass (s : String) : SegClass :=
  match s.data with
  | ':' :: c :: rest =>
    if c = '\n' then SegClass.lit
    else SegClass.param (String.mk ((c :: rest).takeWhile (fun ch => ch != '\n')))
  | '*' :: c :: rest =>
    if c = '\n' then SegClass.lit
    else SegClass.splat (String.mk ((c :: rest).takeWhile (fun ch => ch != '\n')))
  | _ => SegClass.lit

/-- TrieNode from part_000: children map, optional callback (unassigned until a
    registration terminates here), stored validator, the parameter and splat names
    (definite-assignment fields in the source, undefined until the node is created
    through the corresponding token), and the route-scoped middleware list. -/
inductive TrieNode where
  | mk
      (children : List (String × TrieNode))
      (callback : Option Handler)
      (pattern : Option CompiledPattern)
      (paramName : Option String)
      (splatName : Option String)
      (middlewares : List Middleware)

def TrieNode.children : TrieNode → List (String × TrieNode)
  | .mk c _ _ _ _ _ => c

def TrieNode.callback : TrieNode → Option Handler
  | .mk _ cb _ _ _ _ => cb

def TrieNode.pattern : TrieNode → Option CompiledPattern
  | .mk _ _ p _ _ _ => p

def TrieNode.paramName : TrieNode → Option String
  | .mk _ _ _ pn _ _ => pn

def TrieNode.splatName : TrieNode → Option String
  | .mk _ _ _ _ sn _ => sn

def TrieNode.middlewares : TrieNode → List Middleware
  | .mk _ _ _ _ _ mws => mws

/-- Fresh TrieNode: new TrieNode(). -/
def emptyNode : TrieNode := .mk [] none none none none []

/-- Key and freshly-created child for a registration token, following addRoute:
    a parameter token maps to the reserved key ":param" and a fresh node carrying
    the parameter name, a splat token to "*splat" with the splat name, and a
    literal token to itself with a plain fresh node. -/
def mkChildFor (s : String) : String × TrieNode :=
  match segClass s with
  | SegClass.param nm => (":param", TrieNode.mk [] none none (some nm) none [])
  | SegClass.splat nm => ("*splat", TrieNode.mk [] none none none (some nm) [])
  | SegClass.lit => (s, emptyNode)

/-- Walk to a child of the trie along raw child-map keys (inspection helper). -/
def TrieNode.childAt : TrieNode → List String → Option TrieNode
  | t, [] => some t
  | t, k :: rest =>
    match jsGet t.children k with
    | some c => TrieNode.childAt c rest
    | none => none

/-- Registration walk from addRoute (part_000 lines 96 to 124): get or create the
    child for each token (an existing :param or *splat child keeps its stored name
    untouched), then store callback, compiled validator and middleware list on the
    final node, overwriting any prior terminal data there. -/
def addSegs (node : TrieNode) (segs : List String) (cb : Handler)
    (pat : CompiledPattern) (mws : List Middleware) : TrieNode :=
  match segs with
  | [] =>
    TrieNode.mk node.children (some cb) (some pat) node.paramName node.splatName mws
  | s :: rest =>
    TrieNode.mk
      (jsSet node.children (mkChildFor s).1
        (addSegs ((jsGet node.children (mkChildFor s).1).getD (mkChildFor s).2)
          rest cb pat mws))
      node.callback node.pattern node.paramName node.splatName node.middlewares

/-- Router from part_000: one trie root per HTTP method plus the global middleware
    list. -/
structure Router where
  methods : List (String × TrieNode)
  globalMiddlewares : List Middleware

/-- Router constructor: one fresh root per supported method. -/
def Router.new : Router :=
  { methods :=
      [("GET", emptyNode), ("POST", emptyNode), ("PUT", emptyNode),
       ("DELETE", emptyNode), ("PATCH", emptyNode), ("OPTIONS", emptyNode)],
    globalMiddlewares := [] }

/-- Router.use: append a global middleware. -/
def Router.use (r : Router) (m : Middleware) : Router :=
  { r with globalMiddlewares := r.globalMiddlewares ++ [m] }

/-- Router.addRoute from part_000 lines 90 to 124.  The source asserts the method
    root with a non-null assertion; the registration surface only passes the six
    supported method literals, which are always present, so the none branch is
    unreachable through the API. -/
def Router.addRoute (r : Router) (method : String) (path : String) (cb : Handler)
    (mws : List Middleware) : Router :=
  match jsGet r.methods method with
  | none => r
  | some root =>
    { r with
      methods :=
        jsSet r.methods method
          (addSegs root (splitPath path) cb (createPattern path) mws) }

def Router.get (r : Router) (path : String) (cb : Handler) (mws : List Middleware) : Router :=
  r.addRoute "GET" path cb mws

def Router.post (r : Router) (path : String) (cb : Handler) (mws : List Middleware) : Router :=
  r.addRoute "POST" path cb mws

def Router.put (r : Router) (path : String) (cb : Handler) (mws : List Middleware) : Router :=
  r.addRoute "PUT" path cb mws

def Router.delete (r : Router) (path : String) (cb : Handler) (mws : List Middleware) : Router :=
  r.addRoute "DELETE" path cb mws

def Router.patch (r : Router) (path : String) (cb : Handler) (mws : List Middleware) : Router :=
  r.addRoute "PATCH" path cb mws

def Router.options (r : Router) (path : String) (cb : Handler) (mws : List Middleware) : Router :=
  r.addRoute "OPTIONS" path cb mws

/-- Not-found response: new Response("Not found", { status: 404 }). -/
def send404 : Response := { body := "Not found", status := 404 }

/-- Optional-chained startsWith on the Content-Type header: undefined when the
    header is absent, which is falsy. -/
def ctStartsWith (req : Request) (p : String) : Bool :=
  match req.contentType with
  | some ct => charsLeadWith ct.data p.data
  | none => false

/-- Trie walk from part_000 lines 199 to 212, with the full pathname carried for the
    splat case: exact child first, then the :param child (binding the stored
    parameter name to the segment), then the *splat child, which binds the stored
    splat name to pathname.slice(pathname.indexOf(segment)).join("/") and stops
    consuming (break).  The stored names are definitely assigned whenever these
    children exist; a JS read of an undefined name would key the object with the
    string "undefined", hence the getD default. -/
def walkTrie (pathname : List String) : List String → TrieNode → JsObj →
    Option (TrieNode × JsObj)
  | [], node, params => some (node, params)
  | seg :: rest, node, params =>
    match jsGet node.children seg with
    | some child => walkTrie pathname rest child params
    | none =>
      match jsGet node.children ":param" with
      | some child =>
        walkTrie pathname rest child (jsSet params (child.paramName.getD "undefined") seg)
      | none =>
        match jsGet node.children "*splat" with
        | some child =>
          some (child,
            jsSet params (child.splatName.getD "undefined")
              (String.intercalate "/" (pathname.drop (jsIndexOf pathname seg))))
        | none => none

/-- Matching phase of Router.route (part_000 lines 163 to 212): split the pathname
    into nonempty segments, select the trie by the uppercased method, seed the
    parameter map from the query string when the raw method is exactly "GET" and
    otherwise from the content-type-driven body decode, then walk the trie.  none
    covers both an unknown method and a failed walk, each of which the source turns
    into send404 before any middleware runs. -/
def Router.findMatch (r : Router) (req : Request) : Option (TrieNode × JsObj) :=
  match jsGet r.methods (toUpperCase req.method) with
  | none => none
  | some trie =>
    let pathname := (jsSplitSlash req.urlPath).filter (fun s => s != "")
    let params : JsObj :=
      if req.method = "GET" then mergePairs [] req.query
      else if ctStartsWith req "application/json" then mergePairs [] req.jsonBody
      else if ctStartsWith req "application/x-www-form-urlencoded" then
        mergePairs [] req.formBody
      else if ctStartsWith req "multipart/form-data" then mergePairs [] req.multipartBody
      else []
    walkTrie pathname pathname trie params

/-- Router.handleRoute from part_000 lines 233 to 239: run the callback when the
    node has one (functions are truthy), otherwise 404. -/
def handleRoute (node : TrieNode) (req : Request) (params : JsObj) : Response :=
  match node.callback with
  | some cb => cb req params
  | none => send404

/-- Nested-continuation middleware executor, the common shape of
    executeGlobalMiddlewares and executeRouteMiddlewares (part_000 lines 214 to
    228): past the end of the list invoke the continuation, otherwise invoke the
    middleware at the index with a next that executes the remainder.  Generic in
    the answer type so that the same recursion also runs the trace-instrumented
    semantics below. -/
def executeMiddlewares {α : Type} (req : Request) (params : JsObj)
    (mws : List (Request → JsObj → (Unit → α) → α)) (k : Unit → α) : α :=
  match mws with
  | [] => k ()
  | m :: rest => m req params (fun _ => executeMiddlewares req params rest k)

/-- Router.route from part_000 lines 163 to 231: match, then run all global
    middlewares, then the matched node middlewares, then handleRoute, as nested
    continuations. -/
def Router.route (r : Router) (req : Request) : Response :=
  match r.findMatch req with
  | none => send404
  | some np =>
    executeMiddlewares req np.2 r.globalMiddlewares (fun _ =>
      executeMiddlewares req np.2 np.1.middlewares (fun _ =>
        handleRoute np.1 req np.2))

/- ---------------------------------------------------------------------------
   JS parseInt with an unspecified radix: skip leading whitespace, read an
   optional sign, switch to base 16 on a 0x or 0X prefix, then take the longest
   run of digits of the radix; an empty run is NaN, modelled as none.
   --------------------------------------------------------------------------- -/

def isJsWhitespace (c : Char) : Bool :=
  c == ' ' || c == '\t' || c == '\n' || c == '\r' || c == '\x0b' || c == '\x0c'

def isHexDigit (c : Char) : Bool :=
  c.isDigit || (decide ('a' ≤ c) && decide (c ≤ 'f')) || (decide ('A' ≤ c) && decide (c ≤ 'F'))

def hexVal (c : Char) : Nat :=
  if c.isDigit then c.toNat - '0'.toNat
  else if decide ('a' ≤ c) && decide (c ≤ 'f') then c.toNat - 'a'.toNat + 10
  else c.toNat - 'A'.toNat + 10

def decDigitsToNat (ds : List Char) : Nat :=
  ds.foldl (fun n c => n * 10 + (c.toNat - '0'.toNat)) 0

def hexDigitsToNat (ds : List Char) : Nat :=
  ds.foldl (fun n c => n * 16 + hexVal c) 0

def parseUnsigned (cs : List Char) : Option Nat :=
  match cs with
  | '0' :: 'x' :: rest =>
    let ds := rest.takeWhile isHexDigit
    if ds.isEmpty then none else some (hexDigitsToNat ds)
  | '0' :: 'X' :: rest =>
    let ds := rest.takeWhile isHexDigit
    if ds.isEmpty then none else some (hexDigitsToNat ds)
  | _ =>
    let ds := cs.takeWhile Char.isDigit
    if ds.isEmpty then none else some (decDigitsToNat ds)

/-- parseInt(s): none models NaN. -/
def parseIntJs (s : String) : Option Int :=
  match s.data.dropWhile isJsWhitespace with
  | '-' :: rest => (parseUnsigned rest).map (fun n => -(n : Int))
  | '+' :: rest => (parseUnsigned rest).map (fun n => (n : Int))
  | cs => (parseUnsigned cs).map (fun n => (n : Int))

/-- Controller interface from src/Controller.ts: seven optional operations, each a
    (request, params) handler.  The show field carries a trailing underscore only
    because show is a Lean keyword. -/
structure Controller where
  index : Option Handler
  show_ : Option Handler
  create : Option Handler
  update : Option Handler
  delete : Option Handler
  patch : Option Handler
  options : Option Handler

/-- Router.mapController from part_000 lines 275 to 283: register every present
    operation under its conventional method and path.  Source line 281 reads
    this.patch(path, controller.patch.bind(controller)), middlewares; so the
    middleware list sits outside the call behind a comma operator and the patch
    route is registered with the default empty middleware list. -/
def Router.mapController (r : Router) (path : String) (c : Controller)
    (mws : List Middleware) : Router :=
  let r1 := match c.index with | some h => r.get path h mws | none => r
  let r2 := match c.show_ with | some h => r1.get (path ++ "/:id") h mws | none => r1
  let r3 := match c.create with | some h => r2.post path h mws | none => r2
  let r4 := match c.update with | some h => r3.put path h mws | none => r3
  let r5 := match c.delete with | some h => r4.delete path h mws | none => r4
  let r6 := match c.patch with | some h => r5.patch path h [] | none => r5
  match c.options with | some h => r6.options path h mws | none => r6

/-- ModelController interface (part_000 draft of src/ModelController.ts): the
    entity-resolution capability plus optional operations.  The show operation
    receives the resolved entity; create receives the parsed JSON body, whose
    unchecked cast as T in the source is an identity at runtime, so the embedded
    create takes the parsed Json directly.

    Modelled from the spec: the find field.  mapModelController in part_000 calls
    controller.model.find(...), and the Model base class is not under src
    (src/Model.ts is missing; only its importers are present); the spec requires of
    a model controller a find(id) capability that resolves an identifier to an
    entity, which is also exactly what the part_001 draft calls directly as
    controller.find(parseInt(params.id)).  The argument is the parseInt result,
    with none standing for NaN, on which resolution misses. -/
structure ModelController (T : Type) where
  find : Option Int → Option T
  index : Option (Request → Response)
  show_ : Option (Request → T → Response)
  create : Option (Request → Json → Response)
  update : Option (Request → T → Response)
  delete : Option (Request → T → Response)
  patch : Option (Request → T → Response)
  options : Option (Request → T → Response)

/-- Router.mapModelController from part_000 lines 250 to 273: index registers
    directly; show registers a wrapper on path/:id that parses params.id with
    parseInt (a missing key reads as undefined, which parseInt receives as the
    string "undefined"), resolves through find, invokes show on a hit (entities are
    objects, hence truthy) and returns 404 on a miss; create registers a wrapper on
    path that requires the Content-Type header to equal application/json exactly,
    passing the parsed body to create and returning 415 otherwise.  The remaining
    operations are not registered by this mapping. -/
def Router.mapModelController {T : Type} (r : Router) (path : String)
    (c : ModelController T) (mws : List Middleware) : Router :=
  let r1 := match c.index with
    | some h => r.get path (fun req _ => h req) mws
    | none => r
  let r2 := match c.show_ with
    | some sh =>
      r1.get (path ++ "/:id")
        (fun req params =>
          match c.find (parseIntJs ((jsGet params "id").getD "undefined")) with
          | some m => sh req m
          | none => send404) mws
    | none => r1
  match c.create with
  | some cr =>
    r2.post path
      (fun req _ =>
        if req.contentType = some "application/json" then cr req req.jsonBody
        else { body := "Unsupported Media Type", status := 415 }) mws
  | none => r2

/- ---------------------------------------------------------------------------
   Trace-instrumented middleware semantics.  A middleware is given by an identity
   and a behaviour describing how it uses the continuation it receives; running it
   through the same executeMiddlewares recursion as Router.route, at the
   state-passing answer type TraceFn, records every invocation in a trace.
   --------------------------------------------------------------------------- -/

/-- Observable middleware behaviours: pass invokes the continuation exactly once
    and returns its response, halt returns its own response without invoking the
    continuation, twice invokes the continuation twice and returns the second
    response. -/
inductive MWB where
  | pass : MWB
  | halt : Response → MWB
  | twice : MWB
deriving DecidableEq

/-- Answer type of the instrumented chain: a function of the trace accumulated so
    far, returning the final trace and the response. -/
abbrev TraceFn := List Nat → List Nat × Response

/-- Interpretation of an identified behaviour as a middleware at the instrumented
    answer type: every invocation first appends the identity to the trace. -/
def MWB.denote (idb : Nat × MWB) : Request → JsObj → (Unit → TraceFn) → TraceFn :=
  fun _ _ next tr =>
    match idb.2 with
    | MWB.pass => next () (tr ++ [idb.1])
    | MWB.halt r => (tr ++ [idb.1], r)
    | MWB.twice =>
      let p := next () (tr ++ [idb.1])
      next () p.1

/-- Inert request handed to the instrumented chain (behaviours ignore it). -/
def dummyRequest : Request :=
  { method := "GET", urlPath := "/", query := [], contentType := none,
    jsonBody := [], formBody := [], multipartBody := [] }

/-- Dispatch of Router.route past a successful match (part_000 lines 214 to 230),
    run on identified behaviours: all global middlewares, then the route
    middlewares, then the terminal handler, which appends its own identity and
    returns its response.  Identical nesting to Router.route, at answer type
    TraceFn, starting from the empty trace. -/
def chainExec (globals routeMws : List (Nat × MWB)) (handlerId : Nat)
    (handlerResp : Response) : List Nat × Response :=
  executeMiddlewares dummyRequest [] (globals.map MWB.denote)
    (fun _ =>
      executeMiddlewares dummyRequest [] (routeMws.map MWB.denote)
        (fun _ => fun tr => (tr ++ [handlerId], handlerResp))) []

/- ---------------------------------------------------------------------------
   Concrete requests, handlers and routers used to evaluate the embedding.
   --------------------------------------------------------------------------- -/

/-- GET request to a path, empty query, no headers, no body. -/
def getRequest (p : String) : Request :=
  { method := "GET", urlPath := p, query := [], contentType := none,
    jsonBody := [], formBody := [], multipartBody := [] }

/-- POST request to a path with a Content-Type header and a parsed JSON body. -/
def postRequest (p : String) (ct : Option String) (body : Json) : Request :=
  { method := "POST", urlPath := p, query := [], contentType := ct,
    jsonBody := body, formBody := [], multipartBody := [] }

/-- Handler echoing the id parameter into the response body. -/
def echoId : Handler :=
  fun _ params => { body := (jsGet params "id").getD "none", status := 200 }

/-- Handler echoing the path parameter into the response body. -/
def echoPath : Handler :=
  fun _ params => { body := (jsGet params "path").getD "none", status := 200 }

/-- Constant handler. -/
def h0 : Handler := fun _ _ => { body := "h", status := 200 }

/-- Pass-through middleware. -/
def mw0 : Middleware := fun _ _ next => next ()

/-- Plain 200 response. -/
def respOk : Response := { body := "ok", status := 200 }

/-- Router with one GET route pattern /users/:id. -/
def demoParamRouter (h : Handler) : Router := Router.new.get "/users/:id" h []

/-- Router with one POST route pattern /users/:id. -/
def demoPostParamRouter (h : Handler) : Router := Router.new.post "/users/:id" h []

/-- GET request whose query carries a key colliding with the id path parameter,
    plus a non-colliding key. -/
def demoGetCollide (qv : String) : Request :=
  { method := "GET", urlPath := "/users/42", query := [("id", qv), ("q", "1")],
    contentType := none, jsonBody := [], formBody := [], multipartBody := [] }

/-- POST request whose JSON body carries a key colliding with the id path
    parameter, plus a non-colliding key. -/
def demoPostCollide (bv : String) : Request :=
  { method := "POST", urlPath := "/users/42", query := [],
    contentType := some "application/json",
    jsonBody := [("id", bv), ("b", "2")], formBody := [], multipartBody := [] }

/-- Router with one GET route pattern /files/*path. -/
def demoSplatRouter : Router := Router.new.get "/files/*path" echoPath []

/-- Two GET registrations placing differently-named parameters at the same
    position. -/
def demoC2Router : Router :=
  (Router.new.get "/users/:id" echoId []).get "/users/:name" echoId []

/-- Stored parameter name on the node reached from the method root along the given
    child keys. -/
def paramNameAt (r : Router) (method : String) (keys : List String) :
    Option (Option String) :=
  ((jsGet r.methods method).bind (fun t => t.childAt keys)).map TrieNode.paramName

/-- Stored middleware list on the node reached from the method root along the given
    child keys. -/
def middlewaresAt (r : Router) (method : String) (keys : List String) :
    Option (List Middleware) :=
  ((jsGet r.methods method).bind (fun t => t.childAt keys)).map TrieNode.middlewares

/-- Model controller exposing only find and show. -/
def demoModelShow {T : Type} (find : Option Int → Option T)
    (sh : Request → T → Response) : ModelController T :=
  { find := find, index := none, show_ := some sh, create := none,
    update := none, delete := none, patch := none, options := none }

/-- Model controller exposing only find and create. -/
def demoModelCreate {T : Type} (find : Option Int → Option T)
    (cr : Request → Json → Response) : ModelController T :=
  { find := find, index := none, show_ := none, create := some cr,
    update := none, delete := none, patch := none, options := none }

/-- Controller with every operation present. -/
def demoController (hI hS hC hU hD hP hO : Handler) : Controller :=
  { index := some hI, show_ := some hS, create := some hC, update := some hU,
    delete := some hD, patch := some hP, options := some hO }

/-- PATCH request to /users with no body. -/
def patchRequest : Request :=
  { method := "PATCH", urlPath := "/users", query := [], contentType := none,
    jsonBody := [], formBody := [], multipartBody := [] }

/-- Single trie node carrying one :param child whose stored name is id. -/
def c2WitnessNode : TrieNode :=
  TrieNode.mk [(":param", TrieNode.mk [] none none (some "id") none [])]
    none none none none []

/- ---------------------------------------------------------------------------
   Laws of the JS map operations and of registration.
   --------------------------------------------------------------------------- -/

/-- Reading back the key just assigned yields the assigned value. -/
theorem jsGet_jsSet_self {α : Type} (m : List (String × α)) (k : String) (v : α) :
    jsGet (jsSet m k v) k = some v := by
  induction m with
  | nil => simp [jsSet, jsGet]
  | cons p rest ih =>
    by_cases hp : p.1 == k
    · simp [jsSet, jsGet, hp]
    · simp [jsSet, jsGet, hp, ih]

/-- Two assignments to the same key collapse to the second. -/
theorem jsSet_jsSet {α : Type} (m : List (String × α)) (k : String) (v₁ v₂ : α) :
    jsSet (jsSet m k v₁) k v₂ = jsSet m k v₂ := by
  induction m with
  | nil => simp [jsSet]
  | cons p rest ih =>
    by_cases hp : p.1 == k
    · simp [jsSet, hp]
    · simp [jsSet, hp, ih]

/-- A registration walk never changes the stored parameter name of the node it
    starts from (only children and terminal data are written). -/
theorem addSegs_paramName (t : TrieNode) (segs : List String) (cb : Handler)
    (pat : CompiledPattern) (mws : List Middleware) :
    (addSegs t segs cb pat mws).paramName = t.paramName := by
  cases segs <;> rfl

/-- Registering the same token list twice is the same as registering only the
    second time: the second walk finds every node the first walk created and
    overwrites the terminal data. -/
theorem addSegs_addSegs (segs : List String) (t : TrieNode) (cb₁ cb₂ : Handler)
    (pat₁ pat₂ : CompiledPattern) (mws₁ mws₂ : List Middleware) :
    addSegs (addSegs t segs cb₁ pat₁ mws₁) segs cb₂ pat₂ mws₂
      = addSegs t segs cb₂ pat₂ mws₂ := by
  induction segs generalizing t with
  | nil => rfl
  | cons s rest ih =>
    simp only [addSegs, TrieNode.children, TrieNode.callback, TrieNode.pattern,
      TrieNode.paramName, TrieNode.splatName, TrieNode.middlewares,
      jsGet_jsSet_self, Option.getD_some, jsSet_jsSet, ih]

/-- Router-level version of addSegs_addSegs for a fixed method and path. -/
theorem addRoute_addRoute (r : Router) (method path : String) (cb₁ cb₂ : Handler)
    (mws₁ mws₂ : List Middleware) :
    (r.addRoute method path cb₁ mws₁).addRoute method path cb₂ mws₂
      = r.addRoute method path cb₂ mws₂ := by
  unfold Router.addRoute
  cases hjg : jsGet r.methods method with
  | none => simp [hjg]
  | some root => simp [hjg, jsGet_jsSet_self, jsSet_jsSet, addSegs_addSegs]

/-- Runs of the instrumented chain in which every listed middleware invokes its
    continuation at most once (no twice behaviour) either stop with a trace that
    extends the input by a prefix of the identity list, or fall through to the
    continuation with the trace extended by exactly the identity list. -/
theorem execMWs_simple :
    ∀ (mws : List (Nat × MWB)), (∀ p ∈ mws, p.2 ≠ MWB.twice) →
    ∀ (k : Unit → TraceFn) (tr : List Nat),
      (∃ i r, executeMiddlewares dummyRequest [] (mws.map MWB.denote) k tr
          = (tr ++ (mws.map Prod.fst).take i, r))
      ∨ executeMiddlewares dummyRequest [] (mws.map MWB.denote) k tr
          = k () (tr ++ mws.map Prod.fst) := by
  intro mws
  induction mws with
  | nil =>
    intro _ k tr
    right
    simp [executeMiddlewares]
  | cons p rest ih =>
    intro hs k tr
    have hp : p.2 ≠ MWB.twice := hs p (List.mem_cons_self p rest)
    have hrest : ∀ q ∈ rest, q.2 ≠ MWB.twice := fun q hq => hs q (List.mem_cons_of_mem p hq)
    cases hb : p.2 with
    | pass =>
      rcases ih hrest k (tr ++ [p.1]) with ⟨i, r, hE⟩ | hE
      · left
        refine ⟨i + 1, r, ?_⟩
        simp only [List.map_cons, executeMiddlewares, MWB.denote, hb, hE,
          List.take_succ_cons, List.append_assoc, List.singleton_append]
      · right
        simp only [List.map_cons, executeMiddlewares, MWB.denote, hb, hE,
          List.append_assoc, List.singleton_append]
    | halt r =>
      left
      refine ⟨1, r, ?_⟩
      simp only [List.map_cons, executeMiddlewares, MWB.denote, hb,
        List.take_succ_cons, List.take_zero, List.append_nil]
    | twice => exact absurd hb hp

/- ---------------------------------------------------------------------------
   Claims.
   --------------------------------------------------------------------------- -/

/-- C1, counterexample.  The claim predicts that a query key sharing the name of a
    path parameter is the value retained in the map passed to the handler: on route
    GET /users/:id and request GET /users/42?id=7 the echoing handler would then
    answer 7.  The code answers 42: route merges the query first and the trie walk
    writes the path value afterwards, overwriting it. -/
theorem c1_counterexample :
    (demoParamRouter echoId).route (demoGetCollide "7") = { body := "42", status := 200 }
    ∧ (demoParamRouter echoId).route (demoGetCollide "7") ≠ { body := "7", status := 200 } :=
  ⟨rfl, by decide⟩

/-- C1, amended.  For every dispatched request the parameter map is populated from
    the query string (GET) or the parsed body (mutating requests) first and from
    path-segment extraction last, later writes overwriting earlier keys of the same
    name: on a colliding key the path value is the one the handler receives, and
    non-colliding query or body keys survive alongside it. -/
theorem c1_amended_merge_order (h : Handler) (qv bv : String) :
    (demoParamRouter h).route (demoGetCollide qv)
        = h (demoGetCollide qv) [("id", "42"), ("q", "1")]
    ∧ (demoPostParamRouter h).route (demoPostCollide bv)
        = h (demoPostCollide bv) [("id", "42"), ("b", "2")] :=
  ⟨rfl, rfl⟩

/-- C2, counterexample.  After registering GET /users/:id and then GET /users/:name
    the claim predicts the shared :param child stores the name from the last
    registration, name; the code stores id, because addRoute assigns the parameter
    name only when it creates the child. -/
theorem c2_counterexample :
    paramNameAt demoC2Router "GET" ["users", ":param"] = some (some "id")
    ∧ paramNameAt demoC2Router "GET" ["users", ":param"] ≠ some (some "name") :=
  ⟨rfl, by decide⟩

/-- C2, amended.  When a registration walks a parameter token into a node that
    already has a :param child, the stored parameter name is left unchanged, so the
    name from the first registration wins; registration is total, raising no
    error. -/
theorem c2_amended_first_name_wins (t : TrieNode) (s nm : String) (child : TrieNode)
    (rest : List String) (cb : Handler) (pat : CompiledPattern) (mws : List Middleware)
    (hcls : segClass s = SegClass.param nm)
    (hchild : jsGet t.children ":param" = some child) :
    (jsGet (addSegs t (s :: rest) cb pat mws).children ":param").map TrieNode.paramName
      = some child.paramName := by
  obtain ⟨tc, tcb, tp, tpn, tsn, tm⟩ := t
  simp only [TrieNode.children] at hchild
  simp only [addSegs, mkChildFor, hcls, TrieNode.children, hchild, Option.getD_some,
    jsGet_jsSet_self, Option.map_some', addSegs_paramName]

/-- C2, witness for the amended statement at a concrete node and token. -/
theorem c2_amended_first_name_wins_witness :
    (jsGet (addSegs c2WitnessNode [":name"] echoId (createPattern "/users/:name") []).children
        ":param").map TrieNode.paramName = some (some "id") :=
  c2_amended_first_name_wins c2WitnessNode ":name" "name"
    (TrieNode.mk [] none none (some "id") none []) [] echoId
    (createPattern "/users/:name") [] (by decide) rfl

/-- C3, code bug.  The splat case computes the bound remainder with
    pathname.slice(pathname.indexOf(segment)), the first occurrence of the current
    segment value, not the current index: on route GET /files/*path the request
    /files/files/b binds path to files/files/b, while the claim (and the spec
    sentence it quotes) requires the remainder from the current segment onward,
    files/b.  The second conjunct checks the claim example without duplicate
    segment values, where the two agree. -/
theorem c3_splat_indexOf_bug :
    demoSplatRouter.route (getRequest "/files/files/b")
        = { body := "files/files/b", status := 200 }
    ∧ demoSplatRouter.route (getRequest "/files/a/b/c")
        = { body := "a/b/c", status := 200 }
    ∧ ("files/files/b" : String) ≠ "files/b" :=
  ⟨rfl, rfl, by decide⟩

/-- C4.  On the instrumented chain with global middlewares a, b and route
    middlewares c, d, all passing, the pre-handler execution order is a, b, c, d
    followed by the handler, and the handler response is returned; if b halts with
    its own response instead, neither c, d (whatever their behaviour) nor the
    handler execute and the chain returns exactly the response b returned. -/
theorem c4_middleware_order (a b c d hid : Nat) (resp haltResp : Response)
    (bC bD : MWB) :
    chainExec [(a, MWB.pass), (b, MWB.pass)] [(c, MWB.pass), (d, MWB.pass)] hid resp
        = ([a, b, c, d, hid], resp)
    ∧ chainExec [(a, MWB.pass), (b, MWB.halt haltResp)] [(c, bC), (d, bD)] hid resp
        = ([a, b], haltResp) :=
  ⟨rfl, rfl⟩

/-- C5, counterexample.  With a global middleware (identity 1) that invokes its
    continuation twice and a passing route middleware (identity 2), the route
    middleware and the handler (identity 0) each run twice, trace 1, 2, 0, 2, 0:
    the promise of at most one invocation per middleware regardless of how
    continuations are used is false on the code. -/
theorem c5_counterexample :
    (chainExec [(1, MWB.twice)] [(2, MWB.pass)] 0 respOk).1 = [1, 2, 0, 2, 0]
    ∧ ¬ ((chainExec [(1, MWB.twice)] [(2, MWB.pass)] 0 respOk).1.count 2 ≤ 1) :=
  ⟨rfl, by decide⟩

/-- C5, amended.  Provided every middleware invokes its continuation at most once,
    no middleware (nor the handler) is invoked more than once per dispatch: with
    pairwise distinct identities, every identity occurs at most once in the
    execution trace of the chain. -/
theorem c5_amended_single_invocation (globals routeMws : List (Nat × MWB))
    (hid : Nat) (resp : Response)
    (hsimple : ∀ p ∈ globals ++ routeMws, p.2 ≠ MWB.twice)
    (hids : (((globals ++ routeMws).map Prod.fst) ++ [hid]).Nodup) :
    ∀ i, ((chainExec globals routeMws hid resp).1).count i ≤ 1 := by
  intro i
  have hg : ∀ p ∈ globals, p.2 ≠ MWB.twice :=
    fun p hp => hsimple p (List.mem_append_left _ hp)
  have hr : ∀ p ∈ routeMws, p.2 ≠ MWB.twice :=
    fun p hp => hsimple p (List.mem_append_right _ hp)
  rw [List.map_append] at hids
  have hsub : ∀ l : List Nat,
      List.Sublist l ((globals.map Prod.fst ++ routeMws.map Prod.fst) ++ [hid]) →
      l.count i ≤ 1 := by
    intro l hl
    exact le_trans (hl.count_le i) (List.nodup_iff_count_le_one.mp hids i)
  unfold chainExec
  rcases execMWs_simple globals hg
      (fun _ => executeMiddlewares dummyRequest [] (routeMws.map MWB.denote)
        (fun _ => fun tr => (tr ++ [hid], resp))) [] with ⟨j, r, hE⟩ | hE
  · rw [hE]
    refine hsub _ ?_
    simp only [List.nil_append]
    exact (List.take_sublist j _).trans
      ((List.sublist_append_left _ _).trans (List.sublist_append_left _ _))
  · rw [hE]
    simp only [List.nil_append]
    rcases execMWs_simple routeMws hr
        (fun _ => fun tr => (tr ++ [hid], resp)) (globals.map Prod.fst)
      with ⟨j, r, hE2⟩ | hE2
    · rw [hE2]
      refine hsub _ ?_
      exact ((List.take_sublist j _).append_left _).trans (List.sublist_append_left _ _)
    · rw [hE2]
      simp only []
      refine hsub _ ?_
      exact List.Sublist.refl _

/-- C5, witness for the amended statement on a concrete simple chain. -/
theorem c5_amended_single_invocation_witness :
    ((chainExec [(1, MWB.pass)] [(2, MWB.halt respOk)] 0 respOk).1).count 2 ≤ 1 :=
  c5_amended_single_invocation [(1, MWB.pass)] [(2, MWB.halt respOk)] 0 respOk
    (by decide) (by decide) 2

/-- C6.  On a model controller mapped at /users with a show operation, GET
    /users/99 parses the id path parameter as an integer and resolves it through
    the find capability: when find misses, the response is 404 and the controller
    show (universally quantified, hence never consulted) is not invoked; when find
    returns an entity, show is invoked with that entity and its response is
    returned. -/
theorem c6_model_show {T : Type} (find : Option Int → Option T)
    (sh : Request → T → Response) (e : T)
    (h99 : find (some 99) = none) (h1 : find (some 1) = some e) :
    (Router.new.mapModelController "/users" (demoModelShow find sh) []).route
        (getRequest "/users/99") = { body := "Not found", status := 404 }
    ∧ (Router.new.mapModelController "/users" (demoModelShow find sh) []).route
        (getRequest "/users/1") = sh (getRequest "/users/1") e := by
  constructor
  · have h : (Router.new.mapModelController "/users" (demoModelShow find sh) []).route
        (getRequest "/users/99")
        = (match find (some 99) with
           | some m => sh (getRequest "/users/99") m
           | none => send404) := rfl
    rw [h, h99]
    rfl
  · have h : (Router.new.mapModelController "/users" (demoModelShow find sh) []).route
        (getRequest "/users/1")
        = (match find (some 1) with
           | some m => sh (getRequest "/users/1") m
           | none => send404) := rfl
    rw [h, h1]

/-- C6, witness at a concrete find with exactly one entity, id 1. -/
theorem c6_model_show_witness :
    (Router.new.mapModelController "/users"
        (demoModelShow (fun n => if n = some 1 then some 5 else none)
          (fun _ n => { body := toString n, status := 200 })) []).route
        (getRequest "/users/99") = { body := "Not found", status := 404 }
    ∧ (Router.new.mapModelController "/users"
        (demoModelShow (fun n => if n = some 1 then some 5 else none)
          (fun _ n => { body := toString n, status := 200 })) []).route
        (getRequest "/users/1")
      = (fun (_ : Request) (n : Nat) => { body := toString n, status := 200 })
          (getRequest "/users/1") 5 :=
  c6_model_show (fun n => if n = some 1 then some 5 else none)
    (fun _ n => { body := toString n, status := 200 }) 5 (by decide) (by decide)

/-- C7.  On a model controller mapped at /users with a create operation, POST
    /users with Content-Type application/json invokes create with the parsed JSON
    body, and POST /users with Content-Type text/plain answers 415 without
    consulting create (universally quantified). -/
theorem c7_model_create {T : Type} (find : Option Int → Option T)
    (cr : Request → Json → Response) (body : Json) :
    (Router.new.mapModelController "/users" (demoModelCreate find cr) []).route
        (postRequest "/users" (some "application/json") body)
      = cr (postRequest "/users" (some "application/json") body) body
    ∧ (Router.new.mapModelController "/users" (demoModelCreate find cr) []).route
        (postRequest "/users" (some "text/plain") body)
      = { body := "Unsupported Media Type", status := 415 } :=
  ⟨rfl, rfl⟩

/-- C8.  A failed match (unknown method or failed trie walk) makes route answer
    404 before any middleware or handler runs; a walk that ends on a node without
    a stored callback (with no middlewares to interfere) also answers 404; and on
    the single registered route GET /users/:id a request for /users/42 invokes the
    handler with parameter map id mapped to the string 42 while /users/42/extra
    gets 404. -/
theorem c8_unmatched_404 :
    (∀ (r : Router) (req : Request), r.findMatch req = none → r.route req = send404)
    ∧ (∀ (r : Router) (req : Request) (node : TrieNode) (params : JsObj),
        r.findMatch req = some (node, params) → r.globalMiddlewares = [] →
        node.middlewares = [] → node.callback = none → r.route req = send404)
    ∧ ∀ h : Handler,
        (demoParamRouter h).route (getRequest "/users/42")
            = h (getRequest "/users/42") [("id", "42")]
        ∧ (demoParamRouter h).route (getRequest "/users/42/extra") = send404 := by
  refine ⟨?_, ?_, ?_⟩
  · intro r req hnone
    simp [Router.route, hnone]
  · intro r req node params hsome hgm hmw hcb
    simp [Router.route, hsome, executeMiddlewares, hgm, hmw, handleRoute, hcb]
  · intro h
    exact ⟨rfl, rfl⟩

/-- C8, witness: the failed-walk case at /users/42/extra, the no-callback prefix
    node at /users, and the parameter extraction at /users/42. -/
theorem c8_unmatched_404_witness :
    (demoParamRouter h0).route (getRequest "/users/42/extra") = send404
    ∧ (demoParamRouter h0).route (getRequest "/users") = send404
    ∧ (demoParamRouter h0).route (getRequest "/users/42")
        = h0 (getRequest "/users/42") [("id", "42")] :=
  ⟨c8_unmatched_404.1 (demoParamRouter h0) (getRequest "/users/42/extra") rfl,
   c8_unmatched_404.2.1 (demoParamRouter h0) (getRequest "/users") _ _ rfl rfl rfl rfl,
   (c8_unmatched_404.2.2 h0).1⟩

/-- C9.  Registering the same method and path twice raises no error (registration
    is total) and leaves the router equal to one that only received the second
    registration, so only the second handler, pattern and middleware list are
    reachable: every request routes exactly as on the second-only router. -/
theorem c9_reregistration_overwrites (r : Router) (method path : String)
    (cb₁ cb₂ : Handler) (mws₁ mws₂ : List Middleware) :
    (r.addRoute method path cb₁ mws₁).addRoute method path cb₂ mws₂
        = r.addRoute method path cb₂ mws₂
    ∧ ∀ req : Request,
      ((r.addRoute method path cb₁ mws₁).addRoute method path cb₂ mws₂).route req
        = (r.addRoute method path cb₂ mws₂).route req := by
  refine ⟨addRoute_addRoute r method path cb₁ cb₂ mws₁ mws₂, fun req => ?_⟩
  rw [addRoute_addRoute]

set_option maxHeartbeats 4000000 in
/-- C10.  Mapping a controller with every operation present and a middleware list:
    because source line 281 places the middleware argument outside the patch call
    behind a comma operator, the PATCH route stores the empty middleware list while
    the GET (index and show), POST, PUT, DELETE and OPTIONS routes all store the
    supplied list; consequently a PATCH dispatch reaches the patch handler without
    running any route-scoped middleware, whatever the supplied list was. -/
theorem c10_patch_no_middlewares (hI hS hC hU hD hP hO : Handler)
    (mws : List Middleware) (hne : mws ≠ []) :
    middlewaresAt (Router.new.mapController "/users"
        (demoController hI hS hC hU hD hP hO) mws) "PATCH" ["users"] = some []
    ∧ middlewaresAt (Router.new.mapController "/users"
        (demoController hI hS hC hU hD hP hO) mws) "GET" ["users"] = some mws
    ∧ middlewaresAt (Router.new.mapController "/users"
        (demoController hI hS hC hU hD hP hO) mws) "GET" ["users", ":param"] = some mws
    ∧ middlewaresAt (Router.new.mapController "/users"
        (demoController hI hS hC hU hD hP hO) mws) "POST" ["users"] = some mws
    ∧ middlewaresAt (Router.new.mapController "/users"
        (demoController hI hS hC hU hD hP hO) mws) "PUT" ["users"] = some mws
    ∧ middlewaresAt (Router.new.mapController "/users"
        (demoController hI hS hC hU hD hP hO) mws) "DELETE" ["users"] = some mws
    ∧ middlewaresAt (Router.new.mapController "/users"
        (demoController hI hS hC hU hD hP hO) mws) "OPTIONS" ["users"] = some mws
    ∧ (Router.new.mapController "/users"
        (demoController hI hS hC hU hD hP hO) mws).route patchRequest
        = hP patchRequest [] :=
  ⟨rfl, rfl, rfl, rfl, rfl, rfl, rfl, rfl⟩

/-- C10, witness at concrete handlers and a concrete nonempty middleware list. -/
theorem c10_patch_no_middlewares_witness :
    middlewaresAt (Router.new.mapController "/users"
        (demoController h0 h0 h0 h0 h0 h0 h0) [mw0]) "PATCH" ["users"] = some []
    ∧ middlewaresAt (Router.new.mapController "/users"
        (demoController h0 h0 h0 h0 h0 h0 h0) [mw0]) "GET" ["users"] = some [mw0]
    ∧ middlewaresAt (Router.new.mapController "/users"
        (demoController h0 h0 h0 h0 h0 h0 h0) [mw0]) "GET" ["users", ":param"] = some [mw0]
    ∧ middlewaresAt (Router.new.mapController "/users"
        (demoController h0 h0 h0 h0 h0 h0 h0) [mw0]) "POST" ["users"] = some [mw0]
    ∧ middlewaresAt (Router.new.mapController "/users"
        (demoController h0 h0 h0 h0 h0 h0 h0) [mw0]) "PUT" ["users"] = some [mw0]
    ∧ middlewaresAt (Router.new.mapController "/users"
        (demoController h0 h0 h0 h0 h0 h0 h0) [mw0]) "DELETE" ["users"] = some [mw0]
    ∧ middlewaresAt (Router.new.mapController "/users"
        (demoController h0 h0 h0 h0 h0 h0 h0) [mw0]) "OPTIONS" ["users"] = some [mw0]
    ∧ (Router.new.mapController "/users"
        (demoController h0 h0 h0 h0 h0 h0 h0) [mw0]).route patchRequest
        = h0 patchRequest [] :=
  c10_patch_no_middlewares h0 h0 h0 h0 h0 h0 h0 [mw0] (List.cons_ne_nil mw0 [])
